import Mathlib

/-!
# Verification of the lbu core stream library

Shallow embedding of the core stream subsystems of the `lbu` library
(z-s-e/lbu), with machine-checked proofs of the specified properties
C1–C10 of its ring index algebra and stream implementations:

* `src/core/lbu/ring_spsc.h` — the mirrored-index circular buffer algebra
  (`lbu::ring_spsc::algorithm::mirrored_index<SizeType>`).
* `src/core/ring_spsc_stream.cpp` — the SPSC ring stream pair.
* `src/core/byte_buffer_stream.cpp` — the in-memory byte buffer streams.
* `src/core/fd_stream.cpp` — the fd-backed streams.
* `src/core/lbu/abstract_stream.h` — the inlined fast path shared by all
  streams.

`SizeType` is an unsigned machine integer of some width `w`; all C++
arithmetic on it is performed modulo `2^w`.  The embedding makes this
explicit: every operation of the index algebra is parametrised by the bit
width `w` and reduces its result modulo `M w = 2^w`, exactly as the
hardware does.  Separate `…P` ("plain") functions give the same
computations in exact natural arithmetic; lemmas show that on the states
the verified properties quantify over (which satisfy the asserted preconditions of the
source) the machine functions agree with the plain ones, so no unsigned
wrap-around is hidden by the embedding.

The file has two parts: all definitions (the embedding) first, then the
theorems about them.
-/

namespace Lbu

/-! ## Machine arithmetic for an unsigned `SizeType` of width `w` -/

/-- `M w = 2^w`, the modulus of `w`-bit unsigned arithmetic. -/
def M (w : Nat) : Nat := 2 ^ w

/-- `w`-bit unsigned subtraction `a - b` (two's complement wrap-around),
valid for `a b < M w`. -/
def wsub (w a b : Nat) : Nat := (a + (M w - b)) % M w

/-- `w`-bit unsigned addition. -/
def wadd (w a b : Nat) : Nat := (a + b) % M w

/-- `w`-bit unsigned doubling (the C++ expression `2*n`). -/
def wdouble (w n : Nat) : Nat := (2 * n) % M w

/-! ## The mirrored-index ring algebra

Source: `src/core/lbu/ring_spsc.h`, class
`lbu::ring_spsc::algorithm::mirrored_index<SizeType>`.  Indices live in a
doubled index space `[0, 2N)`; producer/consumer free slot counts, the
buffer offset of an index and index advancement are computed with plain
unsigned arithmetic in the source.  The functions below mirror the source
expressions operation by operation in `w`-bit arithmetic; the `…P`
functions are their exact-arithmetic counterparts. -/

namespace mirrored_index

/-- `static size_t max_size()` of `mirrored_index<SizeType>`:
`std::numeric_limits<SizeType>::max() / 2 = (2^w - 1) / 2`. -/
def max_size (w : Nat) : Nat := (M w - 1) / 2

/-- `producer_free_slots(p, c, n)`, source expression
`p >= c ? (n - (p - c)) : (c - n - p)` in `w`-bit unsigned arithmetic. -/
def producer_free_slots (w p c n : Nat) : Nat :=
  if p ≥ c then wsub w n (wsub w p c) else wsub w (wsub w c n) p

/-- `consumer_free_slots(p, c, n)`, source expression
`c <= p ? (p - c) : (2*n - c + p)` in `w`-bit unsigned arithmetic. -/
def consumer_free_slots (w p c n : Nat) : Nat :=
  if c ≤ p then wsub w p c else wadd w (wsub w (wdouble w n) c) p

/-- `offset(idx, n)`, source expression `idx >= n ? idx - n : idx` in
`w`-bit unsigned arithmetic. -/
def offset (w idx n : Nat) : Nat :=
  if idx ≥ n then wsub w idx n else idx

/-- `new_index(idx, cnt, n)`, source expression
`(2*n - idx > cnt) ? (idx + cnt) : (idx - n + cnt - n)` in `w`-bit
unsigned arithmetic. -/
def new_index (w idx cnt n : Nat) : Nat :=
  if wsub w (wdouble w n) idx > cnt then wadd w idx cnt
  else wsub w (wadd w (wsub w idx n) cnt) n

/-- Exact-arithmetic counterpart of `producer_free_slots`. -/
def producer_free_slotsP (p c n : Nat) : Nat :=
  if p ≥ c then n - (p - c) else c - n - p

/-- Exact-arithmetic counterpart of `consumer_free_slots`. -/
def consumer_free_slotsP (p c n : Nat) : Nat :=
  if c ≤ p then p - c else 2 * n - c + p

/-- Exact-arithmetic counterpart of `offset`. -/
def offsetP (idx n : Nat) : Nat := if idx ≥ n then idx - n else idx

/-- Exact-arithmetic counterpart of `new_index`. -/
def new_indexP (idx cnt n : Nat) : Nat :=
  if 2 * n - idx > cnt then idx + cnt else idx - n + cnt - n

/-- The state invariant of a mirrored-index ring: both indices lie in the
doubled index space and the used count — the distance from consumer to
producer in the doubled space — is at most `n`. -/
def Inv (n p c : Nat) : Prop :=
  p < 2 * n ∧ c < 2 * n ∧ (c ≤ p → p - c ≤ n) ∧ (p < c → n ≤ c - p)

instance (n p c : Nat) : Decidable (Inv n p c) := by
  unfold Inv; infer_instance

/-- Index pairs reachable from `(0, 0)` by alternately advancing the
producer index by at most `producer_free_slots` and the consumer index by
at most `consumer_free_slots` (any interleaving), as done by
`handle::producer::publish` / `handle::consumer::release`. -/
inductive Reach (w n : Nat) : Nat → Nat → Prop where
  | init : Reach w n 0 0
  | producer_step {p c k : Nat} : Reach w n p c →
      k ≤ producer_free_slots w p c n → Reach w n (new_index w p k n) c
  | consumer_step {p c k : Nat} : Reach w n p c →
      k ≤ consumer_free_slots w p c n → Reach w n p (new_index w c k n)

end mirrored_index

/-! ## The SPSC ring stream pair

Source: `src/core/ring_spsc_stream.cpp` together with the stream base
state from `src/core/lbu/abstract_stream.h` and the class/shared-state
declarations from `src/core/lbu/ring_spsc_stream.h`.  The ring streams
instantiate the algebra at `SizeType = uint32_t` (`alg =
mirrored_index<uint32_t>`), so every index computation below uses width
32.

The embedding elides the raw byte transfers (`memcpy` into and out of the
ring region): the verified properties concern only returned counts, window sizes, status
flags and the shared indices, never about ring byte contents.  A stream is
a record of the abstract-stream state (`statusFlags`, `bufferOffset`,
`bufferSize` — the buffer-available count) and the `ring_spsc::data`
members; the shared record mirrors `ring_spsc_shared_data`, extended with
the kernel event counter's accumulator (`efd`), abstracted to a count of
pending wake signals (spec §4.5.5: only "some signal is pending" matters).

Syscall outcomes are inputs of the model: a `RingEnv` lists, per possible
call site inside one `next_buffer` invocation, whether the event-counter
read/write or the poll succeeded.  A slow-path call runs against the
shared record it is handed (a snapshot); the properties settled on this model
are single-threaded scenarios or per-check properties.

Modelled from the spec: the old revision of `abstract_stream.h` that
`ring_spsc_stream.cpp` was written against is not in the tree (the tree's
`abstract_stream.h` is a newer revision of the same contract with
`status_flags` holding only the sticky bits `{Error, EndOfStream}`, spec
§3.1).  The `.cpp` additionally names a `StatusBufferReady` flag constant;
consistently with the status bitset of the spec and the tree's header —
and with the stream state machine itself, whose slow-path entry treats any
nonzero `statusFlags` as terminal — `StatusBufferReady` carries no status
bit, i.e. it is `0`. -/

namespace stream

/-- `Mode` from `src/core/lbu/abstract_stream.h`. -/
inductive Mode where
  | Blocking
  | NonBlocking
deriving DecidableEq, Repr

/-- `StatusError = 1<<0` (`abstract_stream.h`). -/
def StatusError : Nat := 1

/-- `StatusEndOfStream = 1<<1` (`abstract_stream.h`). -/
def StatusEndOfStream : Nat := 2

/-- Modelled from the spec: `StatusBufferReady`, named by the old-revision
`.cpp` files but absent from the tree's `abstract_stream.h`; the status
bitset is `{Error, EndOfStream}` (spec §3.1), so this carries no bit. -/
def StatusBufferReady : Nat := 0

/-- `ring_spsc::DefaultRingSegmentLimit = (1 << 15)`
(`ring_spsc_stream.h`). -/
def DefaultRingSegmentLimit : Nat := 2 ^ 15

/-- `ring_spsc_shared_data` (`ring_spsc_stream.h`), plus the shared event
counter's accumulator `efd` (number of pending wake signals). -/
structure SharedData where
  producer_index : Nat
  consumer_index : Nat
  producer_wake : Bool
  consumer_wake : Bool
  eos : Bool
  efd : Nat
deriving DecidableEq, Repr

/-- The `ring_spsc_shared_data` constructor state (indices 0, producer
awake, consumer marked waiting, no EOS) with a fresh event counter
(initial value 0). -/
def sharedInit : SharedData :=
  { producer_index := 0, consumer_index := 0, producer_wake := false,
    consumer_wake := true, eos := false, efd := 0 }

/-- One ring stream object: the abstract-stream fast-path state
(`statusFlags`, `bufferOffset`, `bufferSize`) plus the `ring_spsc::data`
members (`ringSize`, `segmentLimit`, `lastIndex`). -/
structure RingStream where
  statusFlags : Nat
  bufferOffset : Nat
  bufferSize : Nat
  ringSize : Nat
  segmentLimit : Nat
  lastIndex : Nat
deriving DecidableEq, Repr

/-- `has_error()` (`abstract_stream.h`): the sticky `Error` bit. -/
def RingStream.hasError (s : RingStream) : Bool :=
  decide (s.statusFlags &&& StatusError ≠ 0)

/-- `at_end()` (`abstract_stream.h`): the sticky `EndOfStream` bit. -/
def RingStream.atEnd (s : RingStream) : Bool :=
  decide (s.statusFlags &&& StatusEndOfStream ≠ 0)

/-- `detail::abstract_stream_base::advance(count)`:
`buffer_offset += count; buffer_available -= count` in 32-bit unsigned
arithmetic. -/
def advance (s : RingStream) (count : Nat) : RingStream :=
  { s with bufferOffset := wadd 32 s.bufferOffset count,
           bufferSize := wsub 32 s.bufferSize count }

/-- `set_segment_size_limit(limit)` (`ring_spsc_stream.h`):
`d.segmentLimit = limit > 0 ? limit : 1`. -/
def set_segment_size_limit (s : RingStream) (limit : Nat) : RingStream :=
  { s with segmentLimit := if 0 < limit then limit else 1 }

/-- Per-invocation syscall outcomes for one `next_buffer` call, in call
order: `io1` — the event-counter op at the test-and-clear site, `io2` —
the unconditional op when the peer was awake, `poll1`/`poll2` — the two
waits, `io3` — the drain/signal between them. -/
structure RingEnv where
  io1 : Bool
  io2 : Bool
  poll1 : Bool
  io3 : Bool
  poll2 : Bool
deriving DecidableEq, Repr

/-- `consumer_read(fd)` (`ring_spsc_stream.cpp`): drain the event
counter; `true` also on would-block, `false` only on a real error. -/
def consumer_read (ok : Bool) (sh : SharedData) : Bool × SharedData :=
  if ok then (true, { sh with efd := 0 }) else (false, sh)

/-- `producer_write(fd)` (`ring_spsc_stream.cpp`): signal the event
counter (maximum-saturation write); `true` also on would-block, `false`
only on a real error. -/
def producer_write (ok : Bool) (sh : SharedData) : Bool × SharedData :=
  if ok then (true, { sh with efd := sh.efd + 1 }) else (false, sh)

/-- `algorithm::continuous_slots(offset, count, n) =
std::min(count, n - offset)` (`ring_spsc.h`), in `w`-bit arithmetic. -/
def continuous_slots (w o count n : Nat) : Nat := min count (wsub w n o)

/-- `input_stream::update_buffer_size` (`ring_spsc_stream.cpp` lines
183–200).  Returns `(returned bool, new statusFlags, new bufferSize)`. -/
def input_update_buffer_size (sh : SharedData)
    (consumer_index segmentLimit ringSize : Nat) : Bool × Nat × Nat :=
  let producer_index := sh.producer_index
  let n := ringSize
  let b := continuous_slots 32 (mirrored_index.offset 32 consumer_index n)
    (mirrored_index.consumer_free_slots 32 producer_index consumer_index n) n
  let bufferSize := min segmentLimit b
  let statusFlags := if 0 < bufferSize then StatusBufferReady else 0
  if bufferSize = 0 ∧ sh.eos = true then (true, StatusEndOfStream, bufferSize)
  else (decide (0 < bufferSize), statusFlags, bufferSize)

/-- `output_stream::update_buffer_size` (`ring_spsc_stream.cpp` lines
371–384).  Returns `(returned bool, new statusFlags, new bufferSize)`. -/
def output_update_buffer_size (sh : SharedData)
    (producer_index segmentLimit ringSize : Nat) : Bool × Nat × Nat :=
  let consumer_index := sh.consumer_index
  let n := ringSize
  let b := continuous_slots 32 (mirrored_index.offset 32 producer_index n)
    (mirrored_index.producer_free_slots 32 producer_index consumer_index n) n
  let bufferSize := min segmentLimit b
  let statusFlags := if 0 < bufferSize then StatusBufferReady else 0
  (decide (0 < bufferSize), statusFlags, bufferSize)

/-- An `update_buffer_size(shared, idx, segmentLimit, ringSize)` call on
the consumer stream: result flag plus the stream with `statusFlags` and
`bufferSize` assigned. -/
def input_check (s : RingStream) (sh : SharedData) (cIdx : Nat) :
    Bool × RingStream :=
  let r := input_update_buffer_size sh cIdx s.segmentLimit s.ringSize
  (r.1, { s with statusFlags := r.2.1, bufferSize := r.2.2 })

/-- Ditto for the producer stream. -/
def output_check (s : RingStream) (sh : SharedData) (pIdx : Nat) :
    Bool × RingStream :=
  let r := output_update_buffer_size sh pIdx s.segmentLimit s.ringSize
  (r.1, { s with statusFlags := r.2.1, bufferSize := r.2.2 })

/-- `input_stream::next_buffer` from `s->consumer_wake.store(true)` (line
154) to the end: arm the wake flag, re-check (returning in non-blocking
mode regardless), then the two-wait blocking loop.  Result is the size of
the returned window plus the updated stream and shared state; any event
counter or poll failure takes the `error:` path (sticky `Error`, empty
window). -/
def input_tail (s : RingStream) (sh : SharedData) (env : RingEnv)
    (mode : Mode) (cIdx : Nat) : Nat × RingStream × SharedData :=
  let sh1 := { sh with consumer_wake := true }
  let r3 := input_check s sh1 cIdx
  if r3.1 = true ∨ mode = Mode.NonBlocking then (r3.2.bufferSize, r3.2, sh1)
  else if env.poll1 = false then
    (0, { r3.2 with statusFlags := StatusError }, sh1)
  else
    let r4 := input_check r3.2 sh1 cIdx
    if r4.1 = true then (r4.2.bufferSize, r4.2, sh1)
    else
      let cr := consumer_read env.io3 sh1
      if cr.1 = false then
        (0, { r4.2 with statusFlags := StatusError }, cr.2)
      else
        let r5 := input_check r4.2 cr.2 cIdx
        if r5.1 = true then (r5.2.bufferSize, r5.2, cr.2)
        else if env.poll2 = false then
          (0, { r5.2 with statusFlags := StatusError }, cr.2)
        else
          let r6 := input_check r5.2 cr.2 cIdx
          (r6.2.bufferSize, r6.2, cr.2)

/-- `input_stream::next_buffer` from the first availability check (line
144): return a window if available; if the producer was awake
(`wakeProducer == false`), drain the event counter unconditionally and
re-check; then fall through to `input_tail`. -/
def input_mid (s : RingStream) (sh : SharedData) (env : RingEnv)
    (mode : Mode) (cIdx : Nat) (wake : Bool) : Nat × RingStream × SharedData :=
  let r1 := input_check s sh cIdx
  if r1.1 = true then (r1.2.bufferSize, r1.2, sh)
  else if wake = false then
    let cr := consumer_read env.io2 sh
    if cr.1 = false then
      (0, { r1.2 with statusFlags := StatusError }, cr.2)
    else
      let r2 := input_check r1.2 cr.2 cIdx
      if r2.1 = true then (r2.2.bufferSize, r2.2, cr.2)
      else input_tail r2.2 cr.2 env mode cIdx
  else input_tail r1.2 sh env mode cIdx

/-- `input_stream::next_buffer(mode)` (`ring_spsc_stream.cpp` lines
118–181): early exit on any sticky status (a blocking call additionally
ORs in `Error`), publish pending consumption (release the consumer
index), test-and-clear the producer wake flag (draining the counter if it
was set and bytes were consumed), then the check sequence. -/
def input_next_buffer (s : RingStream) (sh : SharedData) (env : RingEnv)
    (mode : Mode) : Nat × RingStream × SharedData :=
  if s.statusFlags ≠ 0 then
    (0, if mode = Mode.Blocking
        then { s with statusFlags := s.statusFlags ||| StatusError } else s,
     sh)
  else
    let n := s.ringSize
    let count := wsub 32 s.bufferOffset (mirrored_index.offset 32 s.lastIndex n)
    let cIdx := mirrored_index.new_index 32 s.lastIndex count n
    let sh1 := { sh with consumer_index := cIdx }
    let s1 := { s with lastIndex := cIdx,
                       bufferOffset := mirrored_index.offset 32 cIdx n }
    let wake := decide (0 < count) && sh1.producer_wake
    if wake = true then
      let sh2 := { sh1 with producer_wake := false }
      let cr := consumer_read env.io1 sh2
      if cr.1 = false then (0, { s1 with statusFlags := StatusError }, cr.2)
      else input_mid s1 cr.2 env mode cIdx wake
    else input_mid s1 sh1 env mode cIdx wake

/-- `output_stream::next_buffer` from `s->producer_wake.store(true)` (line
341) to the end; the producer's `error:` path also zeroes `bufferSize`. -/
def output_tail (s : RingStream) (sh : SharedData) (env : RingEnv)
    (mode : Mode) (pIdx : Nat) : Nat × RingStream × SharedData :=
  let sh1 := { sh with producer_wake := true }
  let r3 := output_check s sh1 pIdx
  if r3.1 = true ∨ mode = Mode.NonBlocking then (r3.2.bufferSize, r3.2, sh1)
  else if env.poll1 = false then
    (0, { r3.2 with statusFlags := StatusError, bufferSize := 0 }, sh1)
  else
    let r4 := output_check r3.2 sh1 pIdx
    if r4.1 = true then (r4.2.bufferSize, r4.2, sh1)
    else
      let pw := producer_write env.io3 sh1
      if pw.1 = false then
        (0, { r4.2 with statusFlags := StatusError, bufferSize := 0 }, pw.2)
      else
        let r5 := output_check r4.2 pw.2 pIdx
        if r5.1 = true then (r5.2.bufferSize, r5.2, pw.2)
        else if env.poll2 = false then
          (0, { r5.2 with statusFlags := StatusError, bufferSize := 0 }, pw.2)
        else
          let r6 := output_check r5.2 pw.2 pIdx
          (r6.2.bufferSize, r6.2, pw.2)

/-- `output_stream::next_buffer` from the first availability check (line
331): mirror of `input_mid` with the roles swapped. -/
def output_mid (s : RingStream) (sh : SharedData) (env : RingEnv)
    (mode : Mode) (pIdx : Nat) (wake : Bool) : Nat × RingStream × SharedData :=
  let r1 := output_check s sh pIdx
  if r1.1 = true then (r1.2.bufferSize, r1.2, sh)
  else if wake = false then
    let pw := producer_write env.io2 sh
    if pw.1 = false then
      (0, { r1.2 with statusFlags := StatusError, bufferSize := 0 }, pw.2)
    else
      let r2 := output_check r1.2 pw.2 pIdx
      if r2.1 = true then (r2.2.bufferSize, r2.2, pw.2)
      else output_tail r2.2 pw.2 env mode pIdx
  else output_tail r1.2 sh env mode pIdx

/-- `output_stream::next_buffer(mode)` (`ring_spsc_stream.cpp` lines
306–369): early exit on any sticky status (always ORing in `Error`),
publish pending writes (release the producer index), test-and-clear the
consumer wake flag (signalling the counter if it was set and bytes were
published), then the check sequence. -/
def output_next_buffer (s : RingStream) (sh : SharedData) (env : RingEnv)
    (mode : Mode) : Nat × RingStream × SharedData :=
  if s.statusFlags ≠ 0 then
    (0, { s with statusFlags := s.statusFlags ||| StatusError }, sh)
  else
    let n := s.ringSize
    let count := wsub 32 s.bufferOffset (mirrored_index.offset 32 s.lastIndex n)
    let pIdx := mirrored_index.new_index 32 s.lastIndex count n
    let sh1 := { sh with producer_index := pIdx }
    let s1 := { s with lastIndex := pIdx,
                       bufferOffset := mirrored_index.offset 32 pIdx n }
    let wake := decide (0 < count) && sh1.consumer_wake
    if wake = true then
      let sh2 := { sh1 with consumer_wake := false }
      let pw := producer_write env.io1 sh2
      if pw.1 = false then
        (0, { s1 with statusFlags := StatusError, bufferSize := 0 }, pw.2)
      else output_mid s1 pw.2 env mode pIdx wake
    else output_mid s1 sh1 env mode pIdx wake

/-- The transfer loop of `input_stream::read_stream` (lines 93–110):
repeatedly take the next window, stop on an empty window (error or no
data), otherwise copy and continue.  `fuel` is a structural bound on the
number of iterations; callers pass `dst + 1`, which the loop can never
exhaust because every continuing iteration consumes at least one byte of
`dst`. -/
def input_read_loop (env : RingEnv) (mode : Mode) (fuel count dst : Nat)
    (s : RingStream) (sh : SharedData) : Int × RingStream × SharedData :=
  @Nat.rec
    (fun _ => Nat → Nat → RingStream → SharedData →
      Int × RingStream × SharedData)
    (fun count _ s sh => (Int.ofNat count, s, sh))
    (fun _ rec count dst s sh =>
      let nb := input_next_buffer s sh env mode
      if nb.1 = 0 then
        (if nb.2.1.hasError = true then -1 else Int.ofNat count,
          nb.2.1, nb.2.2)
      else if dst ≤ nb.1 then
        (Int.ofNat (count + dst), advance nb.2.1 dst, nb.2.2)
      else rec (count + nb.1) (dst - nb.1) (advance nb.2.1 nb.1) nb.2.2)
    fuel count dst s sh

/-- `input_stream::read_stream(buf_array, required_read)` (lines 87–111)
for a single destination vector of `dstLen` bytes. -/
def input_read_stream (s : RingStream) (sh : SharedData) (env : RingEnv)
    (dstLen required_read : Nat) : Int × RingStream × SharedData :=
  let mode := if 0 < required_read then Mode.Blocking else Mode.NonBlocking
  input_read_loop env mode (dstLen + 1) 0 dstLen s sh

/-- `abstract_input_stream::read(buf, size, mode)` (`abstract_stream.h`
lines 110–121) instantiated for the ring input stream: inlined fast path
when the window covers the request, otherwise the virtual slow path with
`required_read = size` iff blocking. -/
def ring_read (s : RingStream) (sh : SharedData) (env : RingEnv)
    (size : Nat) (mode : Mode) : Int × RingStream × SharedData :=
  if size ≤ s.bufferSize ∧ 0 < s.bufferSize then
    (Int.ofNat size, advance s size, sh)
  else
    input_read_stream s sh env size (if mode = Mode.Blocking then size else 0)

/-- The transfer loop of `output_stream::write_stream` (lines 275–292),
mirror of `input_read_loop`. -/
def output_write_loop (env : RingEnv) (mode : Mode) (fuel count src : Nat)
    (s : RingStream) (sh : SharedData) : Int × RingStream × SharedData :=
  @Nat.rec
    (fun _ => Nat → Nat → RingStream → SharedData →
      Int × RingStream × SharedData)
    (fun count _ s sh => (Int.ofNat count, s, sh))
    (fun _ rec count src s sh =>
      let nb := output_next_buffer s sh env mode
      if nb.1 = 0 then
        (if nb.2.1.hasError = true then -1 else Int.ofNat count,
          nb.2.1, nb.2.2)
      else if src ≤ nb.1 then
        (Int.ofNat (count + src), advance nb.2.1 src, nb.2.2)
      else rec (count + nb.1) (src - nb.1) (advance nb.2.1 nb.1) nb.2.2)
    fuel count src s sh

/-- `output_stream::write_stream(buf_array, mode)` (lines 251–293) for a
single source vector of `srcLen` bytes: fail on any sticky status (also
setting `Error`), first fill the currently reserved window, then loop;
a zero-size request forces non-blocking mode. -/
def output_write_stream (s : RingStream) (sh : SharedData) (env : RingEnv)
    (srcLen : Nat) (mode : Mode) : Int × RingStream × SharedData :=
  if s.statusFlags ≠ 0 then
    (-1, { s with statusFlags := s.statusFlags ||| StatusError }, sh)
  else
    let count := s.bufferSize
    if 0 < srcLen then
      if 0 < count then
        output_write_loop env mode (srcLen - count + 1) count (srcLen - count)
          (advance s count) sh
      else output_write_loop env mode (srcLen + 1) 0 srcLen s sh
    else output_write_loop env Mode.NonBlocking 1 0 0 s sh

/-- `abstract_output_stream::write(buf, size, mode)` (`abstract_stream.h`
lines 232–243) instantiated for the ring output stream. -/
def ring_write (s : RingStream) (sh : SharedData) (env : RingEnv)
    (size : Nat) (mode : Mode) : Int × RingStream × SharedData :=
  if size ≤ s.bufferSize ∧ 0 < s.bufferSize then
    (Int.ofNat size, advance s size, sh)
  else output_write_stream s sh env size mode

/-- `output_stream::set_end_of_stream()` (`ring_spsc_stream.cpp` lines
211–233): no-op returning `false` in any terminal state; otherwise
publish pending writes, zero the window, release-store `eos`, signal the
event counter (failure makes a sticky `Error`), and mark `EndOfStream`.
`writeOk` is the outcome of the event-counter write. -/
def set_end_of_stream (s : RingStream) (sh : SharedData) (writeOk : Bool) :
    Bool × RingStream × SharedData :=
  if s.statusFlags ≠ 0 then (false, s, sh)
  else
    let n := s.ringSize
    let count := wsub 32 s.bufferOffset (mirrored_index.offset 32 s.lastIndex n)
    let producerIdx := mirrored_index.new_index 32 s.lastIndex count n
    let sh1 := { sh with producer_index := producerIdx }
    let s1 := { s with bufferSize := 0 }
    let sh2 := { sh1 with eos := true }
    let pw := producer_write writeOk sh2
    if pw.1 = false then (false, { s1 with statusFlags := StatusError }, pw.2)
    else (true, { s1 with statusFlags := StatusEndOfStream }, pw.2)

/-- `input_stream::reset(buffer, event_fd, s)` (lines 71–85): clamp the
ring size, adopt the shared consumer index, and run the initial
availability check (with the stream's current segment limit). -/
def input_reset (bufSize : Nat) (sh : SharedData) (segmentLimit : Nat) :
    RingStream :=
  let n := min bufSize (mirrored_index.max_size 32)
  let lastIndex := sh.consumer_index
  let r := input_update_buffer_size sh lastIndex segmentLimit n
  { statusFlags := r.2.1, bufferOffset := mirrored_index.offset 32 lastIndex n,
    bufferSize := r.2.2, ringSize := n, segmentLimit := segmentLimit,
    lastIndex := lastIndex }

/-- `output_stream::reset` (lines 235–249), mirror of `input_reset`. -/
def output_reset (bufSize : Nat) (sh : SharedData) (segmentLimit : Nat) :
    RingStream :=
  let n := min bufSize (mirrored_index.max_size 32)
  let lastIndex := sh.producer_index
  let r := output_update_buffer_size sh lastIndex segmentLimit n
  { statusFlags := r.2.1, bufferOffset := mirrored_index.offset 32 lastIndex n,
    bufferSize := r.2.2, ringSize := n, segmentLimit := segmentLimit,
    lastIndex := lastIndex }

/-- The producer half of `ring_spsc::pair_streams` (`ring_spsc_stream.h`
lines 139–150): reset with the default segment limit (a fresh stream),
then apply the requested limit. -/
def pair_output (bufSize : Nat) (sh : SharedData) (segment_limit : Nat) :
    RingStream :=
  set_segment_size_limit (output_reset bufSize sh DefaultRingSegmentLimit)
    segment_limit

/-- The consumer half of `ring_spsc::pair_streams`. -/
def pair_input (bufSize : Nat) (sh : SharedData) (segment_limit : Nat) :
    RingStream :=
  set_segment_size_limit (input_reset bufSize sh DefaultRingSegmentLimit)
    segment_limit

/-- Iterate `ring_write` with a fixed request and environment, returning
the final stream and shared state. -/
def ring_write_iter (env : RingEnv) (size : Nat) (mode : Mode) :
    Nat → RingStream → SharedData → RingStream × SharedData
  | 0, s, sh => (s, sh)
  | k + 1, s, sh =>
    let r := ring_write s sh env size mode
    ring_write_iter env size mode k r.2.1 r.2.2

/-- An all-successful syscall environment. -/
def envOk : RingEnv :=
  { io1 := true, io2 := true, poll1 := true, io3 := true, poll2 := true }

/-! ## Byte-buffer streams

Source: `src/core/byte_buffer_stream.cpp` (the revision matching the
tree's `abstract_stream.h`, snake_case member names) and
`src/core/lbu/byte_buffer.h`.  The input stream views a caller-provided
byte range; bytes are modelled as a `List Nat`.  The 32-bit
`buffer_offset` / `buffer_available` arithmetic uses `wadd`/`wsub`. -/

/-- `byte_buffer_input_stream` state: the viewed source range plus the
abstract-stream fast-path fields. -/
structure ByteBufferInState where
  src : List Nat
  buffer_offset : Nat
  buffer_available : Nat
  status_flags : Nat
deriving DecidableEq, Repr

/-- `at_end()` for the byte-buffer input stream. -/
def ByteBufferInState.at_end (s : ByteBufferInState) : Bool :=
  decide (s.status_flags &&& StatusEndOfStream ≠ 0)

/-- `has_error()` for the byte-buffer input stream. -/
def ByteBufferInState.has_error (s : ByteBufferInState) : Bool :=
  decide (s.status_flags &&& StatusError ≠ 0)

/-- `byte_buffer_input_stream::reset(buf)` (`byte_buffer_stream.cpp`
lines 20–31): adopt the range; a range longer than the `uint32_t` maximum
is rejected as an immediate sticky error. -/
def byte_buffer_input_reset (src : List Nat) : ByteBufferInState :=
  if src.length ≤ 2 ^ 32 - 1 then
    { src := src, buffer_offset := 0, buffer_available := src.length,
      status_flags := 0 }
  else
    { src := src, buffer_offset := 0, buffer_available := 0,
      status_flags := StatusError }

/-- `byte_buffer_input_stream::read_stream` (lines 33–48): deliver all
remaining bytes into the caller's first vector and become `EndOfStream`.
Returns `(result, bytes copied, state)`; `required_read` is ignored by
the source. -/
def byte_buffer_input_read_stream (s : ByteBufferInState)
    (required_read : Nat) : Int × List Nat × ByteBufferInState :=
  if s.status_flags &&& StatusError ≠ 0 then (-1, [], s)
  else
    let r := s.buffer_available
    let out := if 0 < s.buffer_available then
        (s.src.drop s.buffer_offset).take s.buffer_available else []
    let s1 := if 0 < s.buffer_available then
        { s with buffer_available := 0 } else s
    (Int.ofNat r, out, { s1 with status_flags := StatusEndOfStream })

/-- `abstract_input_stream::read(buf, size, mode)` (`abstract_stream.h`
lines 110–121) instantiated for the byte-buffer input stream.  Returns
`(result, bytes read, state)`. -/
def byte_buffer_input_read (s : ByteBufferInState) (size : Nat)
    (mode : Mode) : Int × List Nat × ByteBufferInState :=
  if size ≤ s.buffer_available ∧ 0 < s.buffer_available then
    (Int.ofNat size, (s.src.drop s.buffer_offset).take size,
      { s with buffer_offset := wadd 32 s.buffer_offset size,
               buffer_available := wsub 32 s.buffer_available size })
  else
    byte_buffer_input_read_stream s (if mode = Mode.Blocking then size else 0)

/-- `byte_buffer::max_size() = (size_t(1) << 31) - 1`
(`byte_buffer.h` line 82). -/
def byte_buffer_max_size : Nat := 2 ^ 31 - 1

/-- `byte_buffer::grow_capacity(size)` (`byte_buffer.h` lines 479–488);
`SmallResered = sizeof(external_data) - 1 = 15` on a 64-bit target. -/
def grow_capacity (cap size : Nat) : Nat :=
  if cap = 15 then max 32 size
  else if byte_buffer_max_size / 2 ≤ cap then byte_buffer_max_size
  else max (cap * 2) size

/-- `byte_buffer::append_commit(count)` (`byte_buffer.h` lines 307–312):
extend the committed size by `count`.  The committed bytes already live in
the buffer region (written through `append_begin`) and are not tracked by
the model: they appear as zero bytes. -/
def byte_buffer_append_commit (buf : List Nat) (count : Nat) : List Nat :=
  buf ++ List.replicate count 0

/-- `byte_buffer::append(data)` via `append_base` (`byte_buffer.h` lines
294–299 and 440–464): append the bytes, growing the capacity when
needed.  Returns `(bytes, capacity)`. -/
def byte_buffer_append (buf : List Nat) (cap : Nat) (data : List Nat) :
    List Nat × Nat :=
  let newSize := buf.length + data.length
  if cap < newSize then (buf ++ data, grow_capacity cap newSize)
  else (buf ++ data, cap)

/-- `byte_buffer_output_stream` state: the byte buffer (committed bytes
plus capacity) and the abstract-stream fast-path fields
(`sync_state` keeps `buffer_offset = buffer.size()` and
`buffer_available = capacity - size`). -/
structure ByteBufferOutState where
  buf : List Nat
  capacity : Nat
  buffer_offset : Nat
  buffer_available : Nat
  status_flags : Nat
deriving DecidableEq, Repr

/-- `byte_buffer_output_stream::write_stream(buf_array, mode)`
(`byte_buffer_stream.cpp` lines 73–86) for a single request: fail on any
status flag; commit the bytes written through `get_buffer` since the last
sync (`buffer_offset - buffer.size()`); then the guard
`max_size() - size() > request` makes a sticky error, and otherwise the
request is appended, the fast-path state resynced, and its length
returned.  `mode` is ignored by the source. -/
def byte_buffer_output_write_stream (s : ByteBufferOutState)
    (req : List Nat) (mode : Mode) : Int × ByteBufferOutState :=
  if s.status_flags ≠ 0 then (-1, s)
  else
    let committed := byte_buffer_append_commit s.buf
      (s.buffer_offset - s.buf.length)
    if byte_buffer_max_size - committed.length > req.length then
      (-1, { s with buf := committed, status_flags := StatusError })
    else
      let a := byte_buffer_append committed s.capacity req
      (Int.ofNat req.length,
        { buf := a.1, capacity := a.2, buffer_offset := a.1.length,
          buffer_available := a.2 - a.1.length,
          status_flags := s.status_flags })

/-! ## Fd-backed streams

Source: `src/core/fd_stream.cpp` (old-revision member names, paired with
the `FdBlockingState` cases of the tree's `fd_stream.h`), modelled for an
unbuffered `fd_input_stream` (constructed with an empty buffer, so
`manages_buffer()` is `false`).  The io error codes are those of
`src/core/lbu/io.h` on Linux (`EAGAIN = 11`, `EINVAL = 22`).  The results
of the `readv` syscalls are an input of the model: a list of
`(return value, error code)` pairs consumed in order; `setNonblockOk` is
the outcome of `fd::set_nonblock`. -/

/-- `FdBlockingState` (`fd_stream.h` lines 30–34). -/
inductive FdBlockingState where
  | Unknown
  | Blocking
  | NonBlocking
deriving DecidableEq, Repr

/-- `io::ReadNoError = 0` (`io.h`). -/
def ReadNoError : Nat := 0

/-- `io::ReadWouldBlock = EAGAIN = 11` (`io.h`). -/
def ReadWouldBlock : Nat := 11

/-- `io::ReadBadRequest = EINVAL = 22` (`io.h`). -/
def ReadBadRequest : Nat := 22

/-- `update_blocking(mode, block, fd)` (`fd_stream.cpp` lines 31–44):
when the cached state differs from the requested mode, try to toggle
`O_NONBLOCK`; record the new state only on success.  Failure is silent:
the cached state is simply left unchanged and no error is reported. -/
def update_blocking (mode : Mode) (block : FdBlockingState)
    (setNonblockOk : Bool) : FdBlockingState :=
  if mode = Mode.Blocking then
    if block ≠ FdBlockingState.Blocking then
      (if setNonblockOk then FdBlockingState.Blocking else block)
    else block
  else
    if block ≠ FdBlockingState.NonBlocking then
      (if setNonblockOk then FdBlockingState.NonBlocking else block)
    else block

/-- `fd_input_stream` state for the unbuffered case: cached blocking
state, status flags and last error code. -/
structure FdInStream where
  fdBlocking : FdBlockingState
  statusFlags : Nat
  err : Nat
deriving DecidableEq, Repr

/-- `io::io_vector_array_advance(array, size)` (`io.h` lines 70–85) on
vector byte lengths. -/
def io_vector_array_advance : List Nat → Nat → List Nat
  | [], _ => []
  | l :: rest, n =>
    if n = 0 then l :: rest
    else if l ≤ n then io_vector_array_advance rest (n - l)
    else (l - n) :: rest

/-- `io::io_vector_array_has_zero_size(array)` (`io.h` lines 61–68). -/
def io_vector_array_has_zero_size (v : List Nat) : Bool :=
  v.all (fun l => l == 0)

/-- The `readv` loop of `fd_input_stream::read_stream` (`fd_stream.cpp`
lines 117–158) in the unbuffered case (`bufferRead = 0`, no internal
buffer refill).  Consumes one `(r, e)` syscall outcome per iteration;
an empty outcome list (never reached in the runs stated about it) ends
the loop with the bytes so far. -/
def fd_read_loop (mode : Mode) (required : Nat) :
    List Nat → Nat → FdInStream → List (Int × Nat) → Int × FdInStream
  | _, count, s, [] => (Int.ofNat count, s)
  | bufArray, count, s, (r, e) :: rest =>
    if 0 < r then
      let count2 := count + r.toNat
      if count2 < required then
        fd_read_loop mode required (io_vector_array_advance bufArray r.toNat)
          count2 s rest
      else (Int.ofNat count2, s)
    else if r = 0 then
      if mode = Mode.Blocking then
        if io_vector_array_has_zero_size bufArray = true then
          (-1, { s with err := ReadBadRequest, statusFlags := StatusError })
        else (Int.ofNat count, { s with statusFlags := StatusEndOfStream })
      else
        if io_vector_array_has_zero_size bufArray = true then (0, s)
        else (0, { s with statusFlags := StatusEndOfStream })
    else
      if e = ReadWouldBlock ∧ mode = Mode.NonBlocking then (0, s)
      else (-1, { s with err := e, statusFlags := StatusError })

/-- `fd_input_stream::read_stream(buf_array, required_read)`
(`fd_stream.cpp` lines 71–158) for an unbuffered stream: fail on sticky
error, reconcile the blocking flag (silently), reject an empty vector
array on a blocking call, then the `readv` loop. -/
def fd_read_stream (s : FdInStream) (bufArray : List Nat)
    (required_read : Nat) (setNonblockOk : Bool) (ios : List (Int × Nat)) :
    Int × FdInStream :=
  if s.statusFlags &&& StatusError ≠ 0 then (-1, s)
  else
    let mode := if 0 < required_read then Mode.Blocking else Mode.NonBlocking
    let s1 := { s with
      fdBlocking := update_blocking mode s.fdBlocking setNonblockOk }
    if bufArray.length = 0 then
      if mode = Mode.Blocking then
        (-1, { s1 with err := ReadBadRequest, statusFlags := StatusError })
      else (0, s1)
    else fd_read_loop mode required_read bufArray 0 s1 ios

end stream

/-! # Theorems -/

theorem M_pos (w : Nat) : 0 < M w := Nat.pos_pow_of_pos w (by decide)

theorem wsub_eq_sub {w a b : Nat} (ha : a < M w) (hba : b ≤ a) :
    wsub w a b = a - b := by
  have hb : b ≤ M w := Nat.le_trans hba (Nat.le_of_lt ha)
  have h1 : a + (M w - b) = M w + (a - b) := by omega
  have h2 : a - b < M w := Nat.lt_of_le_of_lt (Nat.sub_le a b) ha
  rw [wsub, h1, Nat.add_mod_left, Nat.mod_eq_of_lt h2]

theorem wadd_eq_add {w a b : Nat} (h : a + b < M w) :
    wadd w a b = a + b := by
  rw [wadd, Nat.mod_eq_of_lt h]

theorem wdouble_eq {w n : Nat} (h : 2 * n < M w) : wdouble w n = 2 * n := by
  rw [wdouble, Nat.mod_eq_of_lt h]

namespace mirrored_index

theorem max_size_double {w n : Nat} (h : n ≤ max_size w) : 2 * n < M w := by
  have hM : 0 < M w := M_pos w
  have : 2 * n ≤ 2 * ((M w - 1) / 2) := Nat.mul_le_mul_left 2 h
  rw [max_size] at h
  omega

/-- On invariant states, machine `producer_free_slots` computes the exact
value (no wrap-around occurs). -/
theorem producer_free_slots_eq {w p c n : Nat} (hn : n ≤ max_size w)
    (hinv : Inv n p c) :
    producer_free_slots w p c n = producer_free_slotsP p c n := by
  obtain ⟨hp, hc, hle, hlt⟩ := hinv
  have h2n : 2 * n < M w := max_size_double hn
  rw [producer_free_slots, producer_free_slotsP]
  by_cases h : p ≥ c
  · rw [if_pos h, if_pos h]
    rw [wsub_eq_sub (by omega) h, wsub_eq_sub (by omega) (by omega)]
  · rw [if_neg h, if_neg h]
    have hcp : n ≤ c - p := hlt (by omega)
    have hin : wsub w c n = c - n := wsub_eq_sub (by omega) (by omega)
    rw [hin, wsub_eq_sub (by omega) (by omega)]

/-- On invariant states, machine `consumer_free_slots` computes the exact
value. -/
theorem consumer_free_slots_eq {w p c n : Nat} (hn : n ≤ max_size w)
    (hinv : Inv n p c) :
    consumer_free_slots w p c n = consumer_free_slotsP p c n := by
  obtain ⟨hp, hc, hle, hlt⟩ := hinv
  have h2n : 2 * n < M w := max_size_double hn
  rw [consumer_free_slots, consumer_free_slotsP]
  by_cases h : c ≤ p
  · rw [if_pos h, if_pos h, wsub_eq_sub (by omega) h]
  · rw [if_neg h, if_neg h]
    have hcp : n ≤ c - p := hlt (by omega)
    rw [wdouble_eq h2n, wsub_eq_sub (by omega) (by omega),
        wadd_eq_add (by omega)]

/-- For indices in the doubled index space, machine `offset` computes the
exact value. -/
theorem offset_eq {w idx n : Nat} (hn : n ≤ max_size w) (hidx : idx < 2 * n) :
    offset w idx n = offsetP idx n := by
  have h2n : 2 * n < M w := max_size_double hn
  rw [offset, offsetP]
  by_cases h : idx ≥ n
  · rw [if_pos h, if_pos h, wsub_eq_sub (by omega) h]
  · rw [if_neg h, if_neg h]

/-- Under the source's asserted preconditions (`idx < 2*n`, `cnt <= n`),
machine `new_index` computes the exact value. -/
theorem new_index_eq {w idx cnt n : Nat} (hn : n ≤ max_size w)
    (hidx : idx < 2 * n) (hcnt : cnt ≤ n) :
    new_index w idx cnt n = new_indexP idx cnt n := by
  have h2n : 2 * n < M w := max_size_double hn
  rw [new_index, new_indexP, wdouble_eq h2n, wsub_eq_sub (by omega) (by omega)]
  by_cases h : 2 * n - idx > cnt
  · rw [if_pos h, if_pos h, wadd_eq_add (by omega)]
  · rw [if_neg h, if_neg h]
    have hni : n ≤ idx := by omega
    rw [wsub_eq_sub (by omega) hni, wadd_eq_add (by omega),
        wsub_eq_sub (by omega) (by omega)]

theorem producer_free_slotsP_le {n p c : Nat} (hinv : Inv n p c) :
    producer_free_slotsP p c n ≤ n := by
  obtain ⟨hp, hc, hle, hlt⟩ := hinv
  rw [producer_free_slotsP]; split <;> omega

theorem consumer_free_slotsP_le {n p c : Nat} (hinv : Inv n p c) :
    consumer_free_slotsP p c n ≤ n := by
  obtain ⟨hp, hc, hle, hlt⟩ := hinv
  rw [consumer_free_slotsP]; split <;> omega

theorem inv_producer_stepP {n p c k : Nat} (hinv : Inv n p c)
    (hk : k ≤ producer_free_slotsP p c n) : Inv n (new_indexP p k n) c := by
  obtain ⟨hp, hc, hle, hlt⟩ := hinv
  rw [producer_free_slotsP] at hk
  rw [new_indexP]
  refine ⟨?_, hc, ?_, ?_⟩ <;> split at hk <;> split <;> omega

theorem inv_consumer_stepP {n p c k : Nat} (hinv : Inv n p c)
    (hk : k ≤ consumer_free_slotsP p c n) : Inv n p (new_indexP c k n) := by
  obtain ⟨hp, hc, hle, hlt⟩ := hinv
  rw [consumer_free_slotsP] at hk
  rw [new_indexP]
  refine ⟨hp, ?_, ?_, ?_⟩ <;> split at hk <;> split <;> omega

/-- Every reachable index pair satisfies the ring invariant. -/
theorem Reach.inv {w n p c : Nat} (hn1 : 1 ≤ n) (hn : n ≤ max_size w)
    (h : Reach w n p c) : Inv n p c := by
  induction h with
  | init => exact ⟨by omega, by omega, by omega, by omega⟩
  | producer_step hr hk ih =>
      rw [producer_free_slots_eq hn ih] at hk
      rw [new_index_eq hn ih.1
        (Nat.le_trans hk (producer_free_slotsP_le ih))]
      exact inv_producer_stepP ih hk
  | consumer_step hr hk ih =>
      rw [consumer_free_slots_eq hn ih] at hk
      rw [new_index_eq hn ih.2.1
        (Nat.le_trans hk (consumer_free_slotsP_le ih))]
      exact inv_consumer_stepP ih hk

theorem invP_sum {n p c : Nat} (hinv : Inv n p c) :
    producer_free_slotsP p c n + consumer_free_slotsP p c n = n := by
  obtain ⟨hp, hc, hle, hlt⟩ := hinv
  rw [producer_free_slotsP, consumer_free_slotsP]
  by_cases h : c ≤ p
  · rw [if_pos (by omega : p ≥ c), if_pos h]; omega
  · rw [if_neg (by omega : ¬ p ≥ c), if_neg h]; omega

/-- `a % n` for `a < 2*n`, written without division. -/
theorem mod_of_lt_two_mul {a n : Nat} (h : a < 2 * n) :
    a % n = if a < n then a else a - n := by
  split
  · exact Nat.mod_eq_of_lt (by assumption)
  · rw [Nat.mod_eq_sub_mod (by omega)]
    exact Nat.mod_eq_of_lt (by omega)

theorem new_indexP_lt {n i k : Nat} (hi : i < 2 * n) (hk : k ≤ n) :
    new_indexP i k n < 2 * n := by
  rw [new_indexP]; split <;> omega

/-- C1: for the mirrored-index ring algebra with capacity
`1 ≤ n ≤ max_size w` (half the `w`-bit index type's range), every index
pair reachable from `(0, 0)` by alternately advancing the producer index
by at most `producer_free_slots` and the consumer index by at most
`consumer_free_slots` satisfies
`producer_free_slots p c n + consumer_free_slots p c n = n`. -/
theorem c1_free_slots_sum {w n p c : Nat} (hn1 : 1 ≤ n)
    (hn : n ≤ max_size w) (hreach : Reach w n p c) :
    producer_free_slots w p c n + consumer_free_slots w p c n = n := by
  have hinv : Inv n p c := hreach.inv hn1 hn
  rw [producer_free_slots_eq hn hinv, consumer_free_slots_eq hn hinv]
  exact invP_sum hinv

/-- Witness for C1 at `w = 32`, `n = 4` and the reachable pair `(3, 2)`
obtained by advancing the producer by 3 and then the consumer by 2. -/
theorem c1_free_slots_sum_witness :
    1 ≤ 4 ∧ 4 ≤ max_size 32 ∧
      producer_free_slots 32 3 2 4 + consumer_free_slots 32 3 2 4 = 4 := by
  refine ⟨by decide, by decide, ?_⟩
  have h1 : Reach 32 4 (new_index 32 0 3 4) 0 :=
    Reach.producer_step (@Reach.init 32 4) (by decide)
  have e1 : new_index 32 0 3 4 = 3 := by decide
  rw [e1] at h1
  have h2 : Reach 32 4 3 (new_index 32 0 2 4) :=
    Reach.consumer_step h1 (by decide)
  have e2 : new_index 32 0 2 4 = 2 := by decide
  rw [e2] at h2
  exact c1_free_slots_sum (by decide) (by decide) h2

/-- C2: for the mirrored-index ring algebra with capacity
`1 ≤ n ≤ max_size w`, every index `i < 2*n` and count `k ≤ n`:
`offset (new_index i k n) n = (offset i n + k) % n`. -/
theorem c2_offset_new_index {w n i k : Nat} (hn1 : 1 ≤ n)
    (hn : n ≤ max_size w) (hi : i < 2 * n) (hk : k ≤ n) :
    offset w (new_index w i k n) n = (offset w i n + k) % n := by
  rw [new_index_eq hn hi hk, offset_eq hn (new_indexP_lt hi hk),
      offset_eq hn hi]
  have hoff : offsetP i n < n := by rw [offsetP]; split <;> omega
  rw [mod_of_lt_two_mul (by omega)]
  rw [offsetP, new_indexP, offsetP]
  split_ifs <;> omega

/-- Witness for C2 at `w = 32`, `n = 5`, `i = 7`, `k = 4`. -/
theorem c2_offset_new_index_witness :
    1 ≤ 5 ∧ 5 ≤ max_size 32 ∧ 7 < 2 * 5 ∧ 4 ≤ 5 ∧
      offset 32 (new_index 32 7 4 5) 5 = (offset 32 7 5 + 4) % 5 :=
  ⟨by decide, by decide, by decide, by decide,
    c2_offset_new_index (by decide) (by decide) (by decide) (by decide)⟩

end mirrored_index

namespace stream

open mirrored_index

theorem max_size_32_lt : max_size 32 < M 32 := by decide

theorem offsetP_lt {idx n : Nat} (h : idx < 2 * n) : offsetP idx n < n := by
  rw [offsetP]; split <;> omega

/-- The `bufferSize` computed by the consumer's `update_buffer_size` never
exceeds the segment limit. -/
theorem input_update_buffer_size_le (sh : SharedData)
    (cIdx segmentLimit ringSize : Nat) :
    (input_update_buffer_size sh cIdx segmentLimit ringSize).2.2 ≤
      segmentLimit := by
  rw [input_update_buffer_size]
  split <;> exact Nat.min_le_left _ _

/-- The `bufferSize` computed by the producer's `update_buffer_size` never
exceeds the segment limit. -/
theorem output_update_buffer_size_le (sh : SharedData)
    (pIdx segmentLimit ringSize : Nat) :
    (output_update_buffer_size sh pIdx segmentLimit ringSize).2.2 ≤
      segmentLimit := by
  rw [output_update_buffer_size]
  exact Nat.min_le_left _ _

theorem input_check_seg (s : RingStream) (sh : SharedData) (cIdx : Nat) :
    ((input_check s sh cIdx).2).segmentLimit = s.segmentLimit := rfl

theorem output_check_seg (s : RingStream) (sh : SharedData) (pIdx : Nat) :
    ((output_check s sh pIdx).2).segmentLimit = s.segmentLimit := rfl

theorem input_check_le (s : RingStream) (sh : SharedData) (cIdx : Nat) :
    ((input_check s sh cIdx).2).bufferSize ≤ s.segmentLimit :=
  input_update_buffer_size_le sh cIdx s.segmentLimit s.ringSize

theorem output_check_le (s : RingStream) (sh : SharedData) (pIdx : Nat) :
    ((output_check s sh pIdx).2).bufferSize ≤ s.segmentLimit :=
  output_update_buffer_size_le sh pIdx s.segmentLimit s.ringSize

theorem input_tail_le (s : RingStream) (sh : SharedData) (env : RingEnv)
    (mode : Mode) (cIdx : Nat) :
    (input_tail s sh env mode cIdx).1 ≤ s.segmentLimit := by
  simp only [input_tail]
  split_ifs <;> first
    | exact Nat.zero_le _
    | exact input_check_le ..

theorem output_tail_le (s : RingStream) (sh : SharedData) (env : RingEnv)
    (mode : Mode) (pIdx : Nat) :
    (output_tail s sh env mode pIdx).1 ≤ s.segmentLimit := by
  simp only [output_tail]
  split_ifs <;> first
    | exact Nat.zero_le _
    | exact output_check_le ..

theorem input_mid_le (s : RingStream) (sh : SharedData) (env : RingEnv)
    (mode : Mode) (cIdx : Nat) (wake : Bool) :
    (input_mid s sh env mode cIdx wake).1 ≤ s.segmentLimit := by
  simp only [input_mid]
  split_ifs <;> first
    | exact Nat.zero_le _
    | exact input_check_le ..
    | exact input_tail_le ..

theorem output_mid_le (s : RingStream) (sh : SharedData) (env : RingEnv)
    (mode : Mode) (pIdx : Nat) (wake : Bool) :
    (output_mid s sh env mode pIdx wake).1 ≤ s.segmentLimit := by
  simp only [output_mid]
  split_ifs <;> first
    | exact Nat.zero_le _
    | exact output_check_le ..
    | exact output_tail_le ..

theorem input_next_buffer_le (s : RingStream) (sh : SharedData)
    (env : RingEnv) (mode : Mode) :
    (input_next_buffer s sh env mode).1 ≤ s.segmentLimit := by
  simp only [input_next_buffer]
  split_ifs <;> first
    | exact Nat.zero_le _
    | exact input_mid_le ..

theorem output_next_buffer_le (s : RingStream) (sh : SharedData)
    (env : RingEnv) (mode : Mode) :
    (output_next_buffer s sh env mode).1 ≤ s.segmentLimit := by
  simp only [output_next_buffer]
  split_ifs <;> first
    | exact Nat.zero_le _
    | exact output_mid_le ..

theorem lor_one_ne_zero (x : Nat) : x ||| 1 ≠ 0 := by
  intro h
  have h2 : (x ||| 1) &&& 1 ≠ 0 := by simp [Nat.and_one_is_mod]
  rw [h] at h2
  exact h2 (by decide)

/-- A ring output stream in a terminal state (some sticky flag set, no
reserved window): every `write` on it fails with `-1` and the stream stays
terminal. -/
theorem ring_write_terminal (s : RingStream) (sh : SharedData)
    (env : RingEnv) (len : Nat) (mode : Mode)
    (h1 : s.statusFlags ≠ 0) (h2 : s.bufferSize = 0) :
    (ring_write s sh env len mode).1 = -1 ∧
    (ring_write s sh env len mode).2.1.statusFlags ≠ 0 ∧
    (ring_write s sh env len mode).2.1.bufferSize = 0 := by
  rw [ring_write, if_neg (fun hc => by omega), output_write_stream,
      if_pos h1]
  exact ⟨rfl, lor_one_ne_zero s.statusFlags, h2⟩

/-- The consumer's `update_buffer_size` as a single conditional (the
buffer-ready marker carries no status bit, so the non-EOS flag value is
`0`). -/
theorem input_update_buffer_size_eq (sh : SharedData)
    (cIdx seg n : Nat) :
    input_update_buffer_size sh cIdx seg n =
      if min seg (continuous_slots 32 (offset 32 cIdx n)
          (consumer_free_slots 32 sh.producer_index cIdx n) n) = 0 ∧
          sh.eos = true
      then (true, StatusEndOfStream,
        min seg (continuous_slots 32 (offset 32 cIdx n)
          (consumer_free_slots 32 sh.producer_index cIdx n) n))
      else (decide (0 < min seg (continuous_slots 32 (offset 32 cIdx n)
          (consumer_free_slots 32 sh.producer_index cIdx n) n)), 0,
        min seg (continuous_slots 32 (offset 32 cIdx n)
          (consumer_free_slots 32 sh.producer_index cIdx n) n)) := by
  simp only [input_update_buffer_size]
  split
  · rfl
  · rw [show StatusBufferReady = 0 from rfl, ite_self]

/-- C3: in the SPSC ring consumer's availability check
(`input_stream::update_buffer_size`, performed at the initial check and at
every re-check of `next_buffer`): the `EndOfStream` flag is produced
exactly when the availability computation finds 0 readable bytes and the
shared `eos` flag is then observed `true` (and then an empty window — zero
`bufferSize` — is returned); whenever the availability computation finds
at least one readable byte, the check succeeds with a nonempty window and
`EndOfStream` is not produced even if `eos` is already `true`, so bytes
published before `eos` are delivered before end of stream is reported. -/
theorem c3_consumer_eos_after_availability (sh : SharedData)
    (cIdx segmentLimit n : Nat) (hn : n ≤ max_size 32)
    (hseg : 1 ≤ segmentLimit) (hc : cIdx < 2 * n) :
    ((input_update_buffer_size sh cIdx segmentLimit n).2.1 &&&
        StatusEndOfStream ≠ 0 ↔
      consumer_free_slots 32 sh.producer_index cIdx n = 0 ∧
        sh.eos = true) ∧
    ((input_update_buffer_size sh cIdx segmentLimit n).2.1 &&&
        StatusEndOfStream ≠ 0 →
      (input_update_buffer_size sh cIdx segmentLimit n).1 = true ∧
      (input_update_buffer_size sh cIdx segmentLimit n).2.2 = 0) ∧
    (0 < consumer_free_slots 32 sh.producer_index cIdx n →
      (input_update_buffer_size sh cIdx segmentLimit n).1 = true ∧
      0 < (input_update_buffer_size sh cIdx segmentLimit n).2.2 ∧
      (input_update_buffer_size sh cIdx segmentLimit n).2.1 &&&
        StatusEndOfStream = 0) := by
  have hnM : n < M 32 := Nat.lt_of_le_of_lt hn max_size_32_lt
  have hoff : offset 32 cIdx n = offsetP cIdx n := offset_eq hn hc
  have hol : offsetP cIdx n < n := offsetP_lt hc
  have hw : wsub 32 n (offsetP cIdx n) = n - offsetP cIdx n :=
    wsub_eq_sub hnM (Nat.le_of_lt hol)
  have hcs : continuous_slots 32 (offset 32 cIdx n)
      (consumer_free_slots 32 sh.producer_index cIdx n) n =
      min (consumer_free_slots 32 sh.producer_index cIdx n)
        (n - offsetP cIdx n) := by
    rw [continuous_slots, hoff, hw]
  rw [input_update_buffer_size_eq, hcs]
  by_cases hcase :
      min segmentLimit
        (min (consumer_free_slots 32 sh.producer_index cIdx n)
          (n - offsetP cIdx n)) = 0 ∧ sh.eos = true
  · rw [if_pos hcase]
    obtain ⟨hmin, heos⟩ := hcase
    have hf0 : consumer_free_slots 32 sh.producer_index cIdx n = 0 := by
      omega
    refine ⟨⟨fun _ => ⟨hf0, heos⟩, fun _ => ?_⟩,
      fun _ => ⟨rfl, hmin⟩, fun hf => absurd hf (by omega)⟩
    show StatusEndOfStream &&& StatusEndOfStream ≠ 0
    decide
  · rw [if_neg hcase]
    refine ⟨⟨fun h => ?_, fun hh => ?_⟩, fun h => ?_, fun hf => ?_⟩
    · exact absurd (by decide : (0 : Nat) &&& StatusEndOfStream = 0) h
    · exact absurd ⟨by omega, hh.2⟩ hcase
    · exact absurd (by decide : (0 : Nat) &&& StatusEndOfStream = 0) h
    · have hbs : 0 < min segmentLimit
          (min (consumer_free_slots 32 sh.producer_index cIdx n)
            (n - offsetP cIdx n)) := by omega
      exact ⟨decide_eq_true hbs, hbs,
        (by decide : (0 : Nat) &&& StatusEndOfStream = 0)⟩

/-- Witness for C3: producer index 5, consumer index 3, segment limit 4,
ring size 8, `eos` already `true` with 2 readable bytes. -/
theorem c3_consumer_eos_after_availability_witness :
    (8 ≤ max_size 32 ∧ 1 ≤ 4 ∧ 3 < 2 * 8) ∧
    ((input_update_buffer_size ⟨5, 3, false, false, true, 0⟩ 3 4 8).2.1 &&&
        StatusEndOfStream ≠ 0 ↔
      consumer_free_slots 32 5 3 8 = 0 ∧ true = true) ∧
    ((input_update_buffer_size ⟨5, 3, false, false, true, 0⟩ 3 4 8).2.1 &&&
        StatusEndOfStream ≠ 0 →
      (input_update_buffer_size ⟨5, 3, false, false, true, 0⟩ 3 4 8).1 = true ∧
      (input_update_buffer_size ⟨5, 3, false, false, true, 0⟩ 3 4 8).2.2 = 0) ∧
    (0 < consumer_free_slots 32 5 3 8 →
      (input_update_buffer_size ⟨5, 3, false, false, true, 0⟩ 3 4 8).1 = true ∧
      0 < (input_update_buffer_size ⟨5, 3, false, false, true, 0⟩ 3 4 8).2.2 ∧
      (input_update_buffer_size ⟨5, 3, false, false, true, 0⟩ 3 4 8).2.1 &&&
        StatusEndOfStream = 0) :=
  ⟨⟨by decide, by decide, by decide⟩,
    c3_consumer_eos_after_availability ⟨5, 3, false, false, true, 0⟩ 3 4 8
      (by decide) (by decide) (by decide)⟩

/-- C4: `set_end_of_stream()` on a producer stream with no status flag
set, with the event-counter signal succeeding: it publishes the pending
writes by advancing the shared `producer_index` by the in-flight byte
count (`bufferOffset` past the offset of the last published index), sets
the shared `eos` flag, leaves a wake signal pending on the event counter,
marks the stream `EndOfStream` with an empty window, and returns `true`;
afterwards every `write` call (any size, any mode, any environment) fails
with `-1`, terminal states being preserved. -/
theorem c4_set_end_of_stream (s : RingStream) (sh : SharedData)
    (hflags : s.statusFlags = 0)
    (hn : s.ringSize ≤ max_size 32)
    (hlast : s.lastIndex < 2 * s.ringSize)
    (hbo : s.bufferOffset < M 32)
    (hoffle : offsetP s.lastIndex s.ringSize ≤ s.bufferOffset)
    (hcnt : s.bufferOffset - offsetP s.lastIndex s.ringSize ≤ s.ringSize) :
    (set_end_of_stream s sh true).1 = true ∧
    (set_end_of_stream s sh true).2.2.producer_index =
      new_indexP s.lastIndex
        (s.bufferOffset - offsetP s.lastIndex s.ringSize) s.ringSize ∧
    (set_end_of_stream s sh true).2.2.eos = true ∧
    (set_end_of_stream s sh true).2.2.efd = sh.efd + 1 ∧
    (set_end_of_stream s sh true).2.1.statusFlags = StatusEndOfStream ∧
    (set_end_of_stream s sh true).2.1.bufferSize = 0 ∧
    (∀ (sh2 : SharedData) (env : RingEnv) (len : Nat) (mode : Mode),
      (ring_write (set_end_of_stream s sh true).2.1 sh2 env len mode).1 = -1 ∧
      (ring_write (set_end_of_stream s sh true).2.1 sh2 env len
        mode).2.1.statusFlags ≠ 0 ∧
      (ring_write (set_end_of_stream s sh true).2.1 sh2 env len
        mode).2.1.bufferSize = 0) ∧
    (∀ (s2 : RingStream) (sh2 : SharedData) (env : RingEnv) (len : Nat)
        (mode : Mode), s2.statusFlags ≠ 0 → s2.bufferSize = 0 →
      (ring_write s2 sh2 env len mode).1 = -1 ∧
      (ring_write s2 sh2 env len mode).2.1.statusFlags ≠ 0 ∧
      (ring_write s2 sh2 env len mode).2.1.bufferSize = 0) := by
  have hoffm : offset 32 s.lastIndex s.ringSize =
      offsetP s.lastIndex s.ringSize := offset_eq hn hlast
  have hwc : wsub 32 s.bufferOffset (offset 32 s.lastIndex s.ringSize) =
      s.bufferOffset - offsetP s.lastIndex s.ringSize := by
    rw [hoffm]
    exact wsub_eq_sub hbo hoffle
  have hni : new_index 32 s.lastIndex
      (s.bufferOffset - offsetP s.lastIndex s.ringSize) s.ringSize =
      new_indexP s.lastIndex
        (s.bufferOffset - offsetP s.lastIndex s.ringSize) s.ringSize :=
    new_index_eq hn hlast hcnt
  have he : set_end_of_stream s sh true =
      (true, { s with bufferSize := 0, statusFlags := StatusEndOfStream },
        { sh with
            producer_index := (new_indexP s.lastIndex
              (s.bufferOffset - offsetP s.lastIndex s.ringSize) s.ringSize)
            eos := true
            efd := sh.efd + 1 }) := by
    rw [set_end_of_stream, if_neg (by omega), ← hni, ← hwc]
    rfl
  rw [he]
  refine ⟨rfl, rfl, rfl, rfl, rfl, rfl, fun sh2 env len mode => ?_,
    fun s2 sh2 env len mode h1 h2 => ring_write_terminal s2 sh2 env len
      mode h1 h2⟩
  exact ring_write_terminal _ sh2 env len mode
    (show StatusEndOfStream ≠ 0 by decide) rfl

/-- Witness for C4: a 16-byte ring with 3 in-flight bytes
(`bufferOffset = 3` past `lastIndex = 0`). -/
theorem c4_set_end_of_stream_witness :
    ((⟨0, 3, 13, 16, 16, 0⟩ : RingStream).statusFlags = 0 ∧
      (16 : Nat) ≤ max_size 32 ∧ (0 : Nat) < 2 * 16 ∧ (3 : Nat) < M 32 ∧
      offsetP 0 16 ≤ 3 ∧ 3 - offsetP 0 16 ≤ 16) ∧
    ((set_end_of_stream ⟨0, 3, 13, 16, 16, 0⟩ sharedInit true).1 = true ∧
      (set_end_of_stream ⟨0, 3, 13, 16, 16, 0⟩ sharedInit
        true).2.2.producer_index = new_indexP 0 (3 - offsetP 0 16) 16 ∧
      (set_end_of_stream ⟨0, 3, 13, 16, 16, 0⟩ sharedInit true).2.2.eos =
        true ∧
      (set_end_of_stream ⟨0, 3, 13, 16, 16, 0⟩ sharedInit true).2.2.efd =
        sharedInit.efd + 1 ∧
      (set_end_of_stream ⟨0, 3, 13, 16, 16, 0⟩ sharedInit
        true).2.1.statusFlags = StatusEndOfStream ∧
      (set_end_of_stream ⟨0, 3, 13, 16, 16, 0⟩ sharedInit
        true).2.1.bufferSize = 0 ∧
      (∀ (sh2 : SharedData) (env : RingEnv) (len : Nat) (mode : Mode),
        (ring_write (set_end_of_stream ⟨0, 3, 13, 16, 16, 0⟩ sharedInit
          true).2.1 sh2 env len mode).1 = -1 ∧
        (ring_write (set_end_of_stream ⟨0, 3, 13, 16, 16, 0⟩ sharedInit
          true).2.1 sh2 env len mode).2.1.statusFlags ≠ 0 ∧
        (ring_write (set_end_of_stream ⟨0, 3, 13, 16, 16, 0⟩ sharedInit
          true).2.1 sh2 env len mode).2.1.bufferSize = 0) ∧
      (∀ (s2 : RingStream) (sh2 : SharedData) (env : RingEnv) (len : Nat)
          (mode : Mode), s2.statusFlags ≠ 0 → s2.bufferSize = 0 →
        (ring_write s2 sh2 env len mode).1 = -1 ∧
        (ring_write s2 sh2 env len mode).2.1.statusFlags ≠ 0 ∧
        (ring_write s2 sh2 env len mode).2.1.bufferSize = 0)) :=
  ⟨⟨by decide, by decide, by decide, by decide, by decide, by decide⟩,
    c4_set_end_of_stream ⟨0, 3, 13, 16, 16, 0⟩ sharedInit (by decide)
      (by decide) (by decide) (by decide) (by decide) (by decide)⟩

/-- C6 counterexample: the default segment size limit is not 16 KiB. -/
theorem c6_counterexample : ¬ DefaultRingSegmentLimit = 16 * 1024 := by
  decide

/-- C6 (amended): each side of the SPSC ring stream pair carries a
segment size limit whose default is 32 KiB (`1 << 15` bytes) and whose
minimum is 1 (`set_segment_size_limit` maps 0 to 1 and keeps any positive
limit), and a `next_buffer` call on either side never returns a window
larger than the stream's limit. -/
theorem c6_segment_limit :
    DefaultRingSegmentLimit = 32768 ∧
    (∀ (s : RingStream) (limit : Nat),
      1 ≤ (set_segment_size_limit s limit).segmentLimit ∧
      (set_segment_size_limit s 0).segmentLimit = 1 ∧
      (0 < limit → (set_segment_size_limit s limit).segmentLimit = limit)) ∧
    (∀ (s : RingStream) (sh : SharedData) (env : RingEnv) (mode : Mode),
      (input_next_buffer s sh env mode).1 ≤ s.segmentLimit ∧
      (output_next_buffer s sh env mode).1 ≤ s.segmentLimit) := by
  refine ⟨by decide, fun s limit => ⟨?_, rfl, fun h => ?_⟩,
    fun s sh env mode =>
      ⟨input_next_buffer_le s sh env mode, output_next_buffer_le s sh env mode⟩⟩
  · rw [set_segment_size_limit]
    dsimp only
    split <;> omega
  · rw [set_segment_size_limit]
    dsimp only
    rw [if_pos h]

/-- C5 evidence: on the SPSC ring input stream, after end of stream has
been reported (first blocking read correctly returns 0 with `at_end()`
true and `has_error()` false), the next blocking `read` does NOT return 0
without error: `next_buffer` sees the sticky status in blocking mode, ORs
in `StatusError` and the read returns `-1` — contradicting the claim (and
the documented `read` contract).  Scenario: fresh 16-byte ring pair, the
producer calls `set_end_of_stream`, the consumer then issues two
`read(buf, 1, Blocking)` calls. -/
theorem c5_ring_blocking_read_after_eos :
    (ring_read (pair_input 16 sharedInit 16)
      (set_end_of_stream (pair_output 16 sharedInit 16) sharedInit
        true).2.2 envOk 1 Mode.Blocking).1 = 0 ∧
    (ring_read (pair_input 16 sharedInit 16)
      (set_end_of_stream (pair_output 16 sharedInit 16) sharedInit
        true).2.2 envOk 1 Mode.Blocking).2.1.atEnd = true ∧
    (ring_read (pair_input 16 sharedInit 16)
      (set_end_of_stream (pair_output 16 sharedInit 16) sharedInit
        true).2.2 envOk 1 Mode.Blocking).2.1.hasError = false ∧
    (ring_read
      (ring_read (pair_input 16 sharedInit 16)
        (set_end_of_stream (pair_output 16 sharedInit 16) sharedInit
          true).2.2 envOk 1 Mode.Blocking).2.1
      (ring_read (pair_input 16 sharedInit 16)
        (set_end_of_stream (pair_output 16 sharedInit 16) sharedInit
          true).2.2 envOk 1 Mode.Blocking).2.2
      envOk 1 Mode.Blocking).1 = -1 ∧
    (ring_read
      (ring_read (pair_input 16 sharedInit 16)
        (set_end_of_stream (pair_output 16 sharedInit 16) sharedInit
          true).2.2 envOk 1 Mode.Blocking).2.1
      (ring_read (pair_input 16 sharedInit 16)
        (set_end_of_stream (pair_output 16 sharedInit 16) sharedInit
          true).2.2 envOk 1 Mode.Blocking).2.2
      envOk 1 Mode.Blocking).2.1.hasError = true := by
  decide

/-- One non-blocking 1-MiB `write` against the full 16-byte ring with the
consumer absent is a no-op up to one more pending wake signal: it returns
0 and leaves both the stream and the rest of the shared state unchanged. -/
theorem c7_write_fix (e : Nat) :
    ring_write ⟨0, 0, 0, 16, 16, 16⟩ ⟨16, 0, true, false, false, e⟩ envOk
      1048576 Mode.NonBlocking =
      (0, ⟨0, 0, 0, 16, 16, 16⟩, ⟨16, 0, true, false, false, e + 1⟩) := by
  simp [ring_write, output_write_stream, output_write_loop,
    output_next_buffer, output_mid, output_tail, output_check,
    output_update_buffer_size, producer_write, continuous_slots, advance,
    offset, new_index, producer_free_slots, consumer_free_slots, wsub,
    wadd, wdouble, M, StatusBufferReady, StatusError, StatusEndOfStream,
    envOk, RingStream.hasError]

theorem ring_write_iter_succ (env : RingEnv) (size : Nat) (mode : Mode)
    (k : Nat) (s : RingStream) (sh : SharedData) :
    ring_write_iter env size mode (k + 1) s sh =
      ring_write_iter env size mode k (ring_write s sh env size mode).2.1
        (ring_write s sh env size mode).2.2 := rfl

theorem c7_iter_eq (k e : Nat) :
    ring_write_iter envOk 1048576 Mode.NonBlocking k ⟨0, 0, 0, 16, 16, 16⟩
      ⟨16, 0, true, false, false, e⟩ =
      (⟨0, 0, 0, 16, 16, 16⟩, ⟨16, 0, true, false, false, e + k⟩) := by
  induction k generalizing e with
  | zero => rfl
  | succ k ih =>
      rw [ring_write_iter_succ, c7_write_fix]
      dsimp only
      rw [ih (e + 1)]
      have h : e + 1 + k = e + (k + 1) := by omega
      rw [h]

/-- C7: for an SPSC ring of 16 bytes with segment limit 16 and no
consumer running, the producer's first non-blocking 1-MiB write returns 16
(one full segment) without error, and every further non-blocking write
call returns 0 with `has_error()` still false — backpressure, not an
error. -/
theorem c7_nonblocking_backpressure :
    (ring_write (pair_output 16 sharedInit 16) sharedInit envOk 1048576
      Mode.NonBlocking).1 = 16 ∧
    (ring_write (pair_output 16 sharedInit 16) sharedInit envOk 1048576
      Mode.NonBlocking).2.1.hasError = false ∧
    ∀ k : Nat,
      (ring_write
        (ring_write_iter envOk 1048576 Mode.NonBlocking k
          (ring_write (pair_output 16 sharedInit 16) sharedInit envOk
            1048576 Mode.NonBlocking).2.1
          (ring_write (pair_output 16 sharedInit 16) sharedInit envOk
            1048576 Mode.NonBlocking).2.2).1
        (ring_write_iter envOk 1048576 Mode.NonBlocking k
          (ring_write (pair_output 16 sharedInit 16) sharedInit envOk
            1048576 Mode.NonBlocking).2.1
          (ring_write (pair_output 16 sharedInit 16) sharedInit envOk
            1048576 Mode.NonBlocking).2.2).2
        envOk 1048576 Mode.NonBlocking).1 = 0 ∧
      (ring_write
        (ring_write_iter envOk 1048576 Mode.NonBlocking k
          (ring_write (pair_output 16 sharedInit 16) sharedInit envOk
            1048576 Mode.NonBlocking).2.1
          (ring_write (pair_output 16 sharedInit 16) sharedInit envOk
            1048576 Mode.NonBlocking).2.2).1
        (ring_write_iter envOk 1048576 Mode.NonBlocking k
          (ring_write (pair_output 16 sharedInit 16) sharedInit envOk
            1048576 Mode.NonBlocking).2.1
          (ring_write (pair_output 16 sharedInit 16) sharedInit envOk
            1048576 Mode.NonBlocking).2.2).2
        envOk 1048576 Mode.NonBlocking).2.1.hasError = false := by
  have h1 : ring_write (pair_output 16 sharedInit 16) sharedInit envOk
      1048576 Mode.NonBlocking =
      (16, ⟨0, 0, 0, 16, 16, 16⟩, ⟨16, 0, true, false, false, 1⟩) := rfl
  rw [h1]
  dsimp only
  refine ⟨rfl, rfl, fun k => ?_⟩
  rw [c7_iter_eq k 1]
  dsimp only
  rw [c7_write_fix (1 + k)]
  exact ⟨rfl, by simp [RingStream.hasError, StatusError]⟩

/-- C8: byte-buffer input stream over the 5-byte source `"hello"`
(`[104, 101, 108, 108, 111]`): `read(buf, 3, Blocking)` returns 3 with
`"hel"`; the next `read(buf, 10, Blocking)` returns 2 with `"lo"`; the
next `read(buf, 1, Blocking)` returns 0 and `at_end()` is true. -/
theorem c8_byte_buffer_readback :
    (byte_buffer_input_read
      (byte_buffer_input_reset [104, 101, 108, 108, 111]) 3
      Mode.Blocking).1 = 3 ∧
    (byte_buffer_input_read
      (byte_buffer_input_reset [104, 101, 108, 108, 111]) 3
      Mode.Blocking).2.1 = [104, 101, 108] ∧
    (byte_buffer_input_read
      (byte_buffer_input_read
        (byte_buffer_input_reset [104, 101, 108, 108, 111]) 3
        Mode.Blocking).2.2 10 Mode.Blocking).1 = 2 ∧
    (byte_buffer_input_read
      (byte_buffer_input_read
        (byte_buffer_input_reset [104, 101, 108, 108, 111]) 3
        Mode.Blocking).2.2 10 Mode.Blocking).2.1 = [108, 111] ∧
    (byte_buffer_input_read
      (byte_buffer_input_read
        (byte_buffer_input_read
          (byte_buffer_input_reset [104, 101, 108, 108, 111]) 3
          Mode.Blocking).2.2 10 Mode.Blocking).2.2 1 Mode.Blocking).1 = 0 ∧
    (byte_buffer_input_read
      (byte_buffer_input_read
        (byte_buffer_input_read
          (byte_buffer_input_reset [104, 101, 108, 108, 111]) 3
          Mode.Blocking).2.2 10 Mode.Blocking).2.2 1
      Mode.Blocking).2.2.at_end = true ∧
    (byte_buffer_input_read
      (byte_buffer_input_read
        (byte_buffer_input_read
          (byte_buffer_input_reset [104, 101, 108, 108, 111]) 3
          Mode.Blocking).2.2 10 Mode.Blocking).2.2 1
      Mode.Blocking).2.2.has_error = false := by
  decide

theorem byte_buffer_append_fst (buf : List Nat) (cap : Nat)
    (data : List Nat) : (byte_buffer_append buf cap data).1 = buf ++ data := by
  simp only [byte_buffer_append]
  split <;> rfl

theorem byte_buffer_append_commit_length (buf : List Nat) (count : Nat) :
    (byte_buffer_append_commit buf count).length = buf.length + count := by
  simp [byte_buffer_append_commit]

/-- C10: `byte_buffer_output_stream::write_stream` called with no status
flag set and a single request of `n` bytes (the stream's committed size
after the pending-byte commit being `buffer_offset`): it sets the sticky
`Error` flag and returns `-1` if and only if the buffer's remaining growth
headroom `max_size() - size()` is strictly greater than `n`; otherwise it
appends the `n` request bytes to the underlying byte buffer and returns
`n`. -/
theorem c10_byte_buffer_write_stream (s : ByteBufferOutState)
    (req : List Nat) (mode : Mode) (hflags : s.status_flags = 0)
    (hoff : s.buf.length ≤ s.buffer_offset) :
    (byte_buffer_max_size - s.buffer_offset > req.length →
      (byte_buffer_output_write_stream s req mode).1 = -1 ∧
      (byte_buffer_output_write_stream s req mode).2.status_flags =
        StatusError) ∧
    (¬ byte_buffer_max_size - s.buffer_offset > req.length →
      (byte_buffer_output_write_stream s req mode).1 = Int.ofNat req.length ∧
      (byte_buffer_output_write_stream s req mode).2.buf =
        (s.buf ++ List.replicate (s.buffer_offset - s.buf.length) 0) ++ req ∧
      (byte_buffer_output_write_stream s req mode).2.status_flags = 0) := by
  have hlen : (byte_buffer_append_commit s.buf
      (s.buffer_offset - s.buf.length)).length = s.buffer_offset := by
    rw [byte_buffer_append_commit_length]
    omega
  rw [byte_buffer_output_write_stream, if_neg (by omega)]
  constructor
  · intro h
    rw [if_pos (by rw [hlen]; exact h)]
    exact ⟨rfl, rfl⟩
  · intro h
    rw [if_neg (by rw [hlen]; exact h)]
    refine ⟨rfl, ?_, hflags⟩
    exact byte_buffer_append_fst ..

/-- Witness for C10: empty committed buffer, a 2-byte request; the
headroom (`2^31 - 1` bytes) exceeds the request, so the guard fires. -/
theorem c10_byte_buffer_write_stream_witness :
    ((⟨[], 15, 0, 15, 0⟩ : ByteBufferOutState).status_flags = 0 ∧
      (⟨[], 15, 0, 15, 0⟩ : ByteBufferOutState).buf.length ≤ 0) ∧
    ((byte_buffer_max_size - 0 > ([1, 2] : List Nat).length →
      (byte_buffer_output_write_stream ⟨[], 15, 0, 15, 0⟩ [1, 2]
        Mode.Blocking).1 = -1 ∧
      (byte_buffer_output_write_stream ⟨[], 15, 0, 15, 0⟩ [1, 2]
        Mode.Blocking).2.status_flags = StatusError) ∧
    (¬ byte_buffer_max_size - 0 > ([1, 2] : List Nat).length →
      (byte_buffer_output_write_stream ⟨[], 15, 0, 15, 0⟩ [1, 2]
        Mode.Blocking).1 = Int.ofNat ([1, 2] : List Nat).length ∧
      (byte_buffer_output_write_stream ⟨[], 15, 0, 15, 0⟩ [1, 2]
        Mode.Blocking).2.buf = ([] ++ List.replicate (0 - 0) 0) ++ [1, 2] ∧
      (byte_buffer_output_write_stream ⟨[], 15, 0, 15, 0⟩ [1, 2]
        Mode.Blocking).2.status_flags = 0)) :=
  ⟨⟨by decide, by decide⟩,
    c10_byte_buffer_write_stream ⟨[], 15, 0, 15, 0⟩ [1, 2] Mode.Blocking
      (by decide) (by decide)⟩

/-- C9 counterexample: an fd input stream whose cached blocking state is
`Blocking` receives a non-blocking `read_stream` call and the
`O_NONBLOCK` toggle fails — yet the call proceeds, the `readv` returns 3
bytes, and the call returns 3 with no sticky error and the cached state
unchanged, instead of the claimed sticky `Error` and `-1`. -/
theorem c9_counterexample :
    (fd_read_stream ⟨FdBlockingState.Blocking, 0, 0⟩ [8] 0 false
      [(3, 0)]).1 = 3 ∧
    (fd_read_stream ⟨FdBlockingState.Blocking, 0, 0⟩ [8] 0 false
      [(3, 0)]).2.statusFlags = 0 ∧
    (fd_read_stream ⟨FdBlockingState.Blocking, 0, 0⟩ [8] 0 false
      [(3, 0)]).2.fdBlocking = FdBlockingState.Blocking := by
  decide

theorem update_blocking_of_failure (mode : Mode) (b : FdBlockingState) :
    update_blocking mode b false = b := by
  cases mode <;> cases b <;> rfl

/-- C9 (amended): the fd-backed stream slow path never turns a
blocking-flag reconciliation problem into an error: `update_blocking`
toggles `O_NONBLOCK` when the cached state differs from the requested
mode and, when the toggle fails, leaves the cached state unchanged and
reports nothing; the call simply proceeds to the I/O syscall under the
old flag — in particular a `read_stream` whose toggle failed still
returns the bytes `readv` produced, with `has_error()` still false. -/
theorem c9_blocking_reconciliation (mode : Mode) (b : FdBlockingState)
    (s : FdInStream) (l : Nat) (r : Int) (hflags : s.statusFlags = 0)
    (hr : 0 < r) :
    update_blocking mode b false = b ∧
    (fd_read_stream s [l] 0 false [(r, 0)]).1 = r ∧
    (fd_read_stream s [l] 0 false [(r, 0)]).2.statusFlags = 0 ∧
    (fd_read_stream s [l] 0 false [(r, 0)]).2.fdBlocking = s.fdBlocking := by
  have hub := update_blocking_of_failure
  have hloop : ∀ s2 : FdInStream,
      fd_read_loop Mode.NonBlocking 0 [l] 0 s2 [(r, 0)] =
        (Int.ofNat (0 + r.toNat), s2) := by
    intro s2
    rw [fd_read_loop, if_pos hr, if_neg (by omega)]
  have hmain : fd_read_stream s [l] 0 false [(r, 0)] =
      fd_read_loop Mode.NonBlocking 0 [l] 0
        { s with fdBlocking :=
            update_blocking Mode.NonBlocking s.fdBlocking false } [(r, 0)] := by
    rw [fd_read_stream, if_neg (by rw [hflags]; decide)]
    rfl
  rw [hmain, hloop, hub Mode.NonBlocking s.fdBlocking]
  refine ⟨hub mode b, ?_, hflags, rfl⟩
  rw [Nat.zero_add]
  exact Int.toNat_of_nonneg (Int.le_of_lt hr)

/-- Witness for C9's amended claim at a `Blocking` cached state, a
non-blocking call with a failed toggle and a 3-byte `readv`. -/
theorem c9_blocking_reconciliation_witness :
    ((⟨FdBlockingState.Blocking, 0, 0⟩ : FdInStream).statusFlags = 0 ∧
      (0 : Int) < 3) ∧
    (update_blocking Mode.NonBlocking FdBlockingState.Blocking false =
      FdBlockingState.Blocking ∧
    (fd_read_stream ⟨FdBlockingState.Blocking, 0, 0⟩ [8] 0 false
      [(3, 0)]).1 = 3 ∧
    (fd_read_stream ⟨FdBlockingState.Blocking, 0, 0⟩ [8] 0 false
      [(3, 0)]).2.statusFlags = 0 ∧
    (fd_read_stream ⟨FdBlockingState.Blocking, 0, 0⟩ [8] 0 false
      [(3, 0)]).2.fdBlocking =
        (⟨FdBlockingState.Blocking, 0, 0⟩ : FdInStream).fdBlocking) :=
  ⟨⟨by decide, by decide⟩,
    c9_blocking_reconciliation Mode.NonBlocking FdBlockingState.Blocking
      ⟨FdBlockingState.Blocking, 0, 0⟩ 8 3 (by decide) (by decide)⟩

end stream

end Lbu
